import Mathlib

/-!
# Schillix installer: disk preparation (`disk.c`)

A shallow embedding of `create_root_vtoc`, `create_root_partition`,
`get_suitable_disks` and `create_root_filesystem`.  Library and system calls
are modelled by their outcomes (an environment record per function); every
function returns its C return value together with the calls it issued.
Machine integers are natural numbers or integers with explicit reduction
modulo the width of the C variable that holds them.
-/

namespace Schillix

/-! ## Platform constants and types (`sys/vtoc.h`, `sys/dkio.h`) -/

/-- Modelled from the spec: the platform header `sys/vtoc.h` is not part of
the repository; the slice table has the platform maximum of entries, 16. -/
@[reducible]
def V_NUMPAR : Nat := 16

/-- Modelled from the spec: the tag of an unassigned slice; the value is the
one of the platform header `sys/vtoc.h`, which is not part of the repository. -/
def V_UNASSIGNED : Nat := 0

/-- Modelled from the spec: the tag of the boot slice, with the value of the
platform header. -/
def V_BOOT : Nat := 1

/-- Modelled from the spec: the tag of the root slice, with the value of the
platform header. -/
def V_ROOT : Nat := 2

/-- Modelled from the spec: the tag of the backup slice, with the value of the
platform header. -/
def V_BACKUP : Nat := 5

/-- Modelled from the spec: the flag of an unmountable slice, with the value
of the platform header. -/
def V_UNMNT : Nat := 1

/-- The device directory, `#define DISK_PATH "/dev/rdsk"`. -/
def DISK_PATH : String := "/dev/rdsk"

/-- The fields of `struct dk_geom` the code reads; each is an
`unsigned short` on the platform. -/
structure dk_geom where
  dkg_ncyl : Nat
  dkg_nhead : Nat
  dkg_nsect : Nat
deriving DecidableEq, Repr

/-- A geometry is well formed when each field fits its 16-bit type. -/
def dk_geom.wf (g : dk_geom) : Prop :=
  g.dkg_ncyl < 2 ^ 16 ∧ g.dkg_nhead < 2 ^ 16 ∧ g.dkg_nsect < 2 ^ 16

instance (g : dk_geom) : Decidable g.wf := by
  unfold dk_geom.wf; infer_instance

/-- One entry of the slice table, `struct extpartition`. -/
structure extpartition where
  p_tag : Nat
  p_flag : Nat
  p_pad : Nat
  p_start : Nat
  p_size : Nat
deriving DecidableEq, Repr

/-- The slice table, `struct extvtoc`: header fields the code never touches
and the fixed array `v_part[V_NUMPAR]`. -/
structure extvtoc where
  v_sanity : Nat
  v_version : Nat
  v_sectorsz : Nat
  v_nparts : Nat
  v_part : Fin V_NUMPAR → extpartition

/-! ## `create_root_vtoc` -/

/-- The value of `uint16_t cylinder_size = geo.dkg_nhead * geo.dkg_nsect`. -/
def cylinder_size (g : dk_geom) : Nat :=
  (g.dkg_nhead * g.dkg_nsect) % 2 ^ 16

/-- The value of
`uint32_t disk_size = geo.dkg_ncyl * geo.dkg_nhead * geo.dkg_nsect`. -/
def disk_size (g : dk_geom) : Nat :=
  (g.dkg_ncyl * g.dkg_nhead * g.dkg_nsect) % 2 ^ 32

/-- The body of the `switch (i)` for one slice: the assignments made to
`vtoc.v_part[i]`.  The operand `disk_size - cylinder_size` is computed in
32-bit unsigned arithmetic. -/
def switch_slice (i : Nat) (cs ds : Nat) (p : extpartition) : extpartition :=
  match i with
  | 0 => { p with p_tag := V_ROOT, p_flag := 0, p_start := cs,
                  p_size := (ds + 2 ^ 32 - cs) % 2 ^ 32 }
  | 2 => { p with p_tag := V_BACKUP, p_flag := V_UNMNT, p_start := 0, p_size := ds }
  | 8 => { p with p_tag := V_BOOT, p_flag := V_UNMNT, p_start := 0, p_size := cs }
  | _ => { p with p_tag := V_UNASSIGNED, p_flag := 0, p_start := 0, p_size := 0 }

/-- One iteration of `for (i = 0; i < V_NUMPAR; i++)`. -/
def loop_step (cs ds : Nat) (parts : Fin V_NUMPAR → extpartition) (i : Nat) :
    Fin V_NUMPAR → extpartition :=
  if h : i < V_NUMPAR then
    Function.update parts ⟨i, h⟩ (switch_slice i cs ds (parts ⟨i, h⟩))
  else parts

/-- The whole `for` loop over the slice table. -/
def fill_slices (cs ds : Nat) (v : extvtoc) : extvtoc :=
  { v with v_part := (List.range V_NUMPAR).foldl (loop_step cs ds) v.v_part }

/-- The path opened by the slice-table and partition writers:
`DISK_PATH "/%ss2"` on sparc, `DISK_PATH "/%sp0"` otherwise. -/
def whole_disk_path (sparc : Bool) (disk : String) : String :=
  DISK_PATH ++ "/" ++ disk ++ (if sparc then "s2" else "p0")

/-- Outcomes of the system and library calls made by `create_root_vtoc`. -/
structure VtocEnv where
  /-- Return value of `open (path, O_RDWR)`. -/
  open_ret : Int
  /-- Return value of `ioctl (fd, DKIOCGGEOM, &geo)`. -/
  ioctl_ret : Int
  /-- Contents of `geo` after the ioctl. -/
  geo : dk_geom
  /-- Return value of `read_extvtoc (fd, &vtoc)`: negative on failure, the
  slice index on success. -/
  read_ret : Int
  /-- Contents of `vtoc` after `read_extvtoc` returned. -/
  vtoc : extvtoc
  /-- Return value of `write_extvtoc (fd, &vtoc)`. -/
  write_ret : Int

/-- Calls issued by `create_root_vtoc`. -/
inductive VtocCall where
  | open_rdwr (path : String)
  | ioctl_geom (fd : Int)
  | read_extvtoc (fd : Int)
  | write_extvtoc (fd : Int) (vtoc : extvtoc)
  | close (fd : Int)

/-- The return value of a function and the calls it issued, in order. -/
structure Run (Call : Type) where
  ret : Int
  calls : List Call

/-- Embedding of `create_root_vtoc (char *disk)`. -/
def create_root_vtoc (sparc : Bool) (disk : String) (e : VtocEnv) : Run VtocCall :=
  let path := whole_disk_path sparc disk
  let fd := e.open_ret
  if fd = -1 then
    ⟨-1, [.open_rdwr path]⟩
  else if e.ioctl_ret = -1 then
    ⟨-1, [.open_rdwr path, .ioctl_geom fd, .close fd]⟩
  else
    let cs := cylinder_size e.geo
    let ds := disk_size e.geo
    -- `if (!read_extvtoc (fd, &vtoc))`
    if e.read_ret = 0 then
      ⟨-1, [.open_rdwr path, .ioctl_geom fd, .read_extvtoc fd, .close fd]⟩
    else
      let vtoc := fill_slices cs ds e.vtoc
      if e.write_ret < 0 then
        ⟨-1, [.open_rdwr path, .ioctl_geom fd, .read_extvtoc fd,
              .write_extvtoc fd vtoc, .close fd]⟩
      else
        ⟨0, [.open_rdwr path, .ioctl_geom fd, .read_extvtoc fd,
             .write_extvtoc fd vtoc]⟩

/-- The slice tables handed to `write_extvtoc`, in order. -/
def written_tables : List VtocCall → List extvtoc
  | [] => []
  | .write_extvtoc _ v :: cs => v :: written_tables cs
  | _ :: cs => written_tables cs

/-- The four planned fields of a slice: tag, flags, start, size. -/
def extpartition.plan (p : extpartition) : Nat × Nat × Nat × Nat :=
  (p.p_tag, p.p_flag, p.p_start, p.p_size)

/-- The slice plan of the specification, in its words, for comparison with
the code: with cylinderSize = heads × sectorsPerTrack and diskSize =
cylinders × heads × sectorsPerTrack as natural numbers, slice 0 is the root
slice from cylinderSize spanning diskSize − cylinderSize, slice 2 the
unmountable backup slice from 0 spanning diskSize, slice 8 the unmountable
boot slice from 0 spanning cylinderSize, every other slice unassigned and
zero. -/
def spec_slice_plan (g : dk_geom) (i : Nat) : Nat × Nat × Nat × Nat :=
  let cylinderSize := g.dkg_nhead * g.dkg_nsect
  let diskSize := g.dkg_ncyl * g.dkg_nhead * g.dkg_nsect
  match i with
  | 0 => (V_ROOT, 0, cylinderSize, diskSize - cylinderSize)
  | 2 => (V_BACKUP, V_UNMNT, 0, diskSize)
  | 8 => (V_BOOT, V_UNMNT, 0, cylinderSize)
  | _ => (V_UNASSIGNED, 0, 0, 0)

/-! ## `create_root_partition` (libparted) -/

/-- The fields of a `PedDevice` the code uses: the handle itself and
`pdev->length`, a signed 64-bit sector count. -/
structure PedDevice where
  handle : Nat
  length : Int
deriving DecidableEq, Repr

/-- Outcomes of the libparted calls made by `create_root_partition`.  A
pointer result is `none` for `NULL`; an integer result is the C return
value (libparted returns 0 on failure). -/
structure PartedEnv where
  device_get : Option PedDevice
  disk_type_get : Option Nat
  disk_new_fresh : Option Nat
  file_system_type_get : Option Nat
  partition_new : Option Nat
  partition_set_flag : Int
  device_get_constraint : Option Nat
  disk_add_partition : Int
  disk_commit_to_dev : Int

/-- Calls issued by `create_root_partition`, with their arguments. -/
inductive PedCall where
  | ped_device_get (path : String)
  | ped_disk_type_get (name : String)
  | ped_disk_new_fresh (pdev : Nat) (pdisk_type : Nat)
  | ped_file_system_type_get (name : String)
  /-- The call `ped_partition_new (pdisk, PED_PARTITION_NORMAL, pfs_type, start, end)`. -/
  | ped_partition_new_normal (pdisk : Nat) (pfs_type : Nat) (start stop : Int)
  /-- The call `ped_partition_set_flag (ppart, PED_PARTITION_BOOT, state)`. -/
  | ped_partition_set_flag_boot (ppart : Nat) (state : Int)
  | ped_device_get_constraint (pdev : Nat)
  | ped_disk_add_partition (pdisk : Nat) (ppart : Nat) (constraint : Option Nat)
  | ped_disk_commit_to_dev (pdisk : Nat)
deriving DecidableEq, Repr

/-- Embedding of `create_root_partition (char *disk)`. -/
def create_root_partition (sparc : Bool) (disk : String) (e : PartedEnv) : Run PedCall :=
  let path := whole_disk_path sparc disk
  let c1 : List PedCall := [.ped_device_get path]
  match e.device_get with
  | none => ⟨-1, c1⟩
  | some pdev =>
    let c2 := c1 ++ [.ped_disk_type_get "msdos"]
    match e.disk_type_get with
    | none => ⟨-1, c2⟩
    | some pdisk_type =>
      let c3 := c2 ++ [.ped_disk_new_fresh pdev.handle pdisk_type]
      match e.disk_new_fresh with
      | none => ⟨-1, c3⟩
      | some pdisk =>
        let c4 := c3 ++ [.ped_file_system_type_get "solaris"]
        match e.file_system_type_get with
        | none => ⟨-1, c4⟩
        | some pfs_type =>
          let c5 := c4 ++ [.ped_partition_new_normal pdisk pfs_type 0 (pdev.length - 1)]
          match e.partition_new with
          | none => ⟨-1, c5⟩
          | some ppart =>
            let c6 := c5 ++ [.ped_partition_set_flag_boot ppart 1]
            if e.partition_set_flag = 0 then ⟨-1, c6⟩
            else
              let c7 := c6 ++ [.ped_device_get_constraint pdev.handle,
                               .ped_disk_add_partition pdisk ppart e.device_get_constraint]
              if e.disk_add_partition = 0 then ⟨-1, c7⟩
              else
                let c8 := c7 ++ [.ped_disk_commit_to_dev pdisk]
                if e.disk_commit_to_dev = 0 then ⟨-1, c8⟩
                else ⟨0, c8⟩

/-- Whether a call is the commit of a partition table to the device. -/
def PedCall.is_commit : PedCall → Bool
  | .ped_disk_commit_to_dev _ => true
  | _ => false

/-- Whether a call creates a partition record. -/
def PedCall.is_partition_new : PedCall → Bool
  | .ped_partition_new_normal _ _ _ _ => true
  | _ => false

/-! ## `get_suitable_disks` -/

/-- The NUL character that terminates a C string. -/
def NUL : Char := Char.ofNat 0

/-- A block returned by `malloc`: exactly `bytes.length` bytes. -/
structure CBuf where
  bytes : List Char
deriving DecidableEq, Repr

/-- The C string held by a block: the characters before the first NUL, when
the block holds a NUL at all. -/
def CBuf.c_string (b : CBuf) : Option String :=
  if NUL ∈ b.bytes then some (String.mk (b.bytes.takeWhile (fun c => c != NUL))) else none

/-- Byte `i` of a NUL-terminated name, `d_name[i]`, for `i ≤ strlen`. -/
def char_at (name : String) (i : Nat) : Char :=
  name.data.getD i NUL

/-- The bytes stored by `strncpy (dst, src, n)` into `dst[0..n)`: the
characters of `src`, padded with NUL when `src` is shorter than `n`. -/
def strncpy (src : String) (n : Nat) : List Char :=
  (List.range n).map (char_at src)

/-- One directory entry returned by `readdir`, with the outcomes of the calls
made while handling it. -/
structure Probe where
  d_name : String
  /-- The value of `errno` when `open (path, O_RDONLY)` returned -1; `none`
  when the open succeeded. -/
  open_errno : Option Nat
  /-- Whether the `realloc` of the result array succeeded. -/
  realloc_ok : Bool
  /-- Whether the `malloc` of the name block succeeded. -/
  malloc_ok : Bool
deriving DecidableEq, Repr

/-- The filter at the head of the loop: true when the entry is skipped by
the first `continue`. -/
def not_whole_disk (sparc : Bool) (d_name : String) : Bool :=
  let len := d_name.length
  (char_at d_name 0 != 'c' || decide (len < 2)) ||
  (if sparc then
    (char_at d_name (len - 2) != 's' || char_at d_name (len - 1) != '2')
   else
    (char_at d_name (len - 2) != 'p' || char_at d_name (len - 1) != '0'))

/-- What `get_suitable_disks` does: return a pointer, or store through a
null pointer. -/
inductive DiskList where
  /-- Returned `NULL`. -/
  | null
  /-- Returned the array `disks`: the listed blocks followed by a `NULL` entry. -/
  | array (disks : List CBuf)
  /-- The store `disks[nodisks] = NULL` with `disks == NULL`. -/
  | null_store
deriving DecidableEq, Repr

/-- The `while ((dp = readdir (dir)) != NULL)` loop.  The state is the
array `disks` (`none` for `NULL`), whose length is `nodisks`; the result is
`none` after `goto nomem`.  The message printed for an `errno` other than
`ENOENT` and `ENXIO` does not change the control flow and is left out. -/
def readdir_loop (sparc : Bool) : List Probe → Option (List CBuf) → Option (Option (List CBuf))
  | [], disks => some disks
  | dp :: rest, disks =>
    if not_whole_disk sparc dp.d_name then readdir_loop sparc rest disks
    else
      match dp.open_errno with
      | some _ => readdir_loop sparc rest disks
      | none =>
        if !dp.realloc_ok then none
        else if !dp.malloc_ok then none
        else
          let len := dp.d_name.length
          let block : CBuf := ⟨strncpy dp.d_name (len - 2)⟩
          readdir_loop sparc rest (some (disks.getD [] ++ [block]))

/-- Embedding of `get_suitable_disks (void)`.  The argument is the outcome
of `opendir (DISK_PATH)`: `none` for `NULL`, else the entries `readdir`
returns. -/
def get_suitable_disks (sparc : Bool) (dir : Option (List Probe)) : DiskList :=
  match dir with
  | none => .null
  | some entries =>
    match readdir_loop sparc entries none with
    | none => .null
    | some none => .null_store
    | some (some disks) => .array disks

/-- An entry that passes the name filter and whose probe open succeeded. -/
def Probe.is_live_disk (sparc : Bool) (dp : Probe) : Bool :=
  !not_whole_disk sparc dp.d_name && dp.open_errno.isNone

/-- The block allocated for an entry: `len - 2` bytes filled by `strncpy`. -/
def Probe.block (dp : Probe) : CBuf :=
  ⟨strncpy dp.d_name (dp.d_name.length - 2)⟩

/-! ## `create_root_filesystem` (libnvpair, libzfs) -/

/-- The pool name, `#define ROOT_POOL "syspool"`. -/
def ROOT_POOL : String := "syspool"

/-- The root dataset name, `#define ROOT_NAME "schillix"`. -/
def ROOT_NAME : String := "schillix"

/-- The library constant `ZFS_MOUNTPOINT_LEGACY`. -/
def ZFS_MOUNTPOINT_LEGACY : String := "legacy"

/-- The name `zfs_prop_to_name (ZFS_PROP_MOUNTPOINT)`. -/
def ZFS_PROP_MOUNTPOINT : String := "mountpoint"

/-- The name `zpool_prop_to_name (ZPOOL_PROP_ALTROOT)`. -/
def ZPOOL_PROP_ALTROOT : String := "altroot"

/-- The library constant `ZPOOL_CONFIG_PATH`. -/
def ZPOOL_CONFIG_PATH : String := "path"

/-- The library constant `ZPOOL_CONFIG_TYPE`. -/
def ZPOOL_CONFIG_TYPE : String := "type"

/-- The library constant `VDEV_TYPE_DISK`. -/
def VDEV_TYPE_DISK : String := "disk"

/-- The library constant `VDEV_TYPE_ROOT`. -/
def VDEV_TYPE_ROOT : String := "root"

/-- A name-value list of strings allocated with `NV_UNIQUE_NAME`. -/
abbrev nvlist := List (String × String)

/-- A successful `nvlist_add_string` on a `NV_UNIQUE_NAME` list: a pair of
the same name is removed before the new pair is added. -/
def nvlist_add_string (l : nvlist) (name value : String) : nvlist :=
  l.filter (fun p => p.1 != name) ++ [(name, value)]

/-- The list `nvroot`: its string pairs and its `ZPOOL_CONFIG_CHILDREN`
array of device lists. -/
structure nvroot_list where
  strings : nvlist
  children : List nvlist
deriving DecidableEq, Repr

/-- Outcomes of the library calls made by `create_root_filesystem`, one per
call site in source order.  The functions of libnvpair return 0 on
success; `zpool_create` returns -1 on failure and `zfs_create` a non-zero
value. -/
structure ZfsEnv where
  alloc_vdev : Int
  add_vdev_path : Int
  add_vdev_type : Int
  alloc_nvroot : Int
  add_nvroot_type : Int
  add_nvroot_children : Int
  alloc_props : Int
  add_altroot : Int
  alloc_fsprops : Int
  add_pool_mountpoint : Int
  zpool_create : Int
  zfs_path_to_zhandle : Option Nat
  zfs_prop_set : Int
  add_legacy : Int
  create_ROOT : Int
  add_slash : Int
  create_rootfs : Int
  add_export : Int
  create_export : Int
  add_home : Int
  create_home : Int
  add_user : Int
  create_user : Int

/-- The calls libzfs offers on pools and datasets; `create_root_filesystem`
issues the first four kinds. -/
inductive ZfsCall where
  | zpool_create (pool : String) (nvroot : nvroot_list) (props fsprops : nvlist)
  | zfs_path_to_zhandle (path : String)
  | zfs_prop_set (zhp : Nat) (name value : String)
  /-- The call `zfs_create (hdl, path, ZFS_TYPE_DATASET, props)`; `none` is `NULL`. -/
  | zfs_create (path : String) (props : Option nvlist)
  | zfs_destroy (path : String)
  | zpool_destroy (pool : String)
deriving DecidableEq, Repr

/-- The part of `create_root_filesystem` after the pool exists: the five
dataset creates.  `done` holds the calls issued so far. -/
def create_datasets (e : ZfsEnv) (fsprops0 : nvlist) (done : List ZfsCall) : Run ZfsCall :=
  if e.add_legacy ≠ 0 then ⟨-1, done⟩
  else
    let fsprops1 := nvlist_add_string fsprops0 ZFS_PROP_MOUNTPOINT ZFS_MOUNTPOINT_LEGACY
    let d1 := done ++ [.zfs_create (ROOT_POOL ++ "/ROOT") (some fsprops1)]
    if e.create_ROOT ≠ 0 then ⟨-1, d1⟩
    else if e.add_slash ≠ 0 then ⟨-1, d1⟩
    else
      let fsprops2 := nvlist_add_string fsprops1 ZFS_PROP_MOUNTPOINT "/"
      let d2 := d1 ++ [.zfs_create (ROOT_POOL ++ "/ROOT/" ++ ROOT_NAME) (some fsprops2)]
      if e.create_rootfs ≠ 0 then ⟨-1, d2⟩
      else if e.add_export ≠ 0 then ⟨-1, d2⟩
      else
        let fsprops3 := nvlist_add_string fsprops2 ZFS_PROP_MOUNTPOINT "/export"
        let d3 := d2 ++ [.zfs_create (ROOT_POOL ++ "/export") (some fsprops3)]
        if e.create_export ≠ 0 then ⟨-1, d3⟩
        else if e.add_home ≠ 0 then ⟨-1, d3⟩
        else
          let d4 := d3 ++ [.zfs_create (ROOT_POOL ++ "/export/home") none]
          if e.create_home ≠ 0 then ⟨-1, d4⟩
          else if e.add_user ≠ 0 then ⟨-1, d4⟩
          else
            let d5 := d4 ++ [.zfs_create (ROOT_POOL ++ "/export/home/schillix") none]
            if e.create_user ≠ 0 then ⟨-1, d5⟩
            else ⟨0, d5⟩

/-- Embedding of `create_root_filesystem (char *disk)`.  The flag
`altroot_bug` is the compile-time switch `ZPOOL_CREATE_ALTROOT_BUG`. -/
def create_root_filesystem (altroot_bug : Bool) (disk : String) (e : ZfsEnv) : Run ZfsCall :=
  if e.alloc_vdev ≠ 0 then ⟨-1, []⟩
  else
    let path := DISK_PATH ++ "/" ++ disk ++ "s0"
    if e.add_vdev_path ≠ 0 then ⟨-1, []⟩
    else
      let vdev1 := nvlist_add_string [] ZPOOL_CONFIG_PATH path
      if e.add_vdev_type ≠ 0 then ⟨-1, []⟩
      else
        let vdev := nvlist_add_string vdev1 ZPOOL_CONFIG_TYPE VDEV_TYPE_DISK
        if e.alloc_nvroot ≠ 0 then ⟨-1, []⟩
        else if e.add_nvroot_type ≠ 0 then ⟨-1, []⟩
        else if e.add_nvroot_children ≠ 0 then ⟨-1, []⟩
        else
          let nvroot : nvroot_list :=
            ⟨nvlist_add_string [] ZPOOL_CONFIG_TYPE VDEV_TYPE_ROOT, [vdev]⟩
          if e.alloc_props ≠ 0 then ⟨-1, []⟩
          else if e.add_altroot ≠ 0 then ⟨-1, []⟩
          else
            let props := nvlist_add_string [] ZPOOL_PROP_ALTROOT "/mnt"
            if e.alloc_fsprops ≠ 0 then ⟨-1, []⟩
            else if e.add_pool_mountpoint ≠ 0 then ⟨-1, []⟩
            else
              let fsprops := nvlist_add_string [] ZFS_PROP_MOUNTPOINT ("/" ++ ROOT_POOL)
              let c1 : List ZfsCall := [.zpool_create ROOT_POOL nvroot props fsprops]
              if e.zpool_create = -1 then ⟨-1, c1⟩
              else if altroot_bug then
                let c2 := c1 ++ [.zfs_path_to_zhandle ROOT_POOL]
                match e.zfs_path_to_zhandle with
                | none => ⟨-1, c2⟩
                | some zfs_handle =>
                  let c3 := c2 ++ [.zfs_prop_set zfs_handle ZFS_PROP_MOUNTPOINT ("/" ++ ROOT_POOL)]
                  if e.zfs_prop_set = -1 then ⟨-1, c3⟩
                  else create_datasets e fsprops c3
              else create_datasets e fsprops c1

/-- The dataset creates among the calls, in order: path and properties. -/
def dataset_creates : List ZfsCall → List (String × Option nvlist)
  | [] => []
  | .zfs_create path props :: cs => (path, props) :: dataset_creates cs
  | _ :: cs => dataset_creates cs

/-- Whether a call destroys a dataset or a pool. -/
def ZfsCall.is_destroy : ZfsCall → Bool
  | .zfs_destroy _ => true
  | .zpool_destroy _ => true
  | _ => false

/-- Whether a call creates the pool. -/
def ZfsCall.is_pool_create : ZfsCall → Bool
  | .zpool_create _ _ _ _ => true
  | _ => false

/-- The mountpoint a create call carries: `none` when it passes no property
list or the list has no mountpoint (the dataset inherits). -/
def explicit_mountpoint (props : Option nvlist) : Option String :=
  match props with
  | none => none
  | some l => (l.find? (fun p => p.1 == ZFS_PROP_MOUNTPOINT)).map (fun p => p.2)

/-- The return values of the five `zfs_create` calls, in source order. -/
def ZfsEnv.create_rets (e : ZfsEnv) : List Int :=
  [e.create_ROOT, e.create_rootfs, e.create_export, e.create_home, e.create_user]

/-- Every library call of `create_root_filesystem` succeeds. -/
def ZfsEnv.all_succeed (e : ZfsEnv) : Prop :=
  e.alloc_vdev = 0 ∧ e.add_vdev_path = 0 ∧ e.add_vdev_type = 0 ∧ e.alloc_nvroot = 0 ∧
  e.add_nvroot_type = 0 ∧ e.add_nvroot_children = 0 ∧ e.alloc_props = 0 ∧
  e.add_altroot = 0 ∧ e.alloc_fsprops = 0 ∧ e.add_pool_mountpoint = 0 ∧
  e.zpool_create = 0 ∧ e.zfs_path_to_zhandle.isSome = true ∧ e.zfs_prop_set = 0 ∧
  e.add_legacy = 0 ∧ e.create_ROOT = 0 ∧ e.add_slash = 0 ∧ e.create_rootfs = 0 ∧
  e.add_export = 0 ∧ e.create_export = 0 ∧ e.add_home = 0 ∧ e.create_home = 0 ∧
  e.add_user = 0 ∧ e.create_user = 0

/-- The dataset names the specification lists, in creation order, for a
pool name, a root name and a user name (the specification's words, for
comparison with the code). -/
def spec_dataset_names (pool rootName userName : String) : List String :=
  [pool ++ "/ROOT", pool ++ "/ROOT/" ++ rootName, pool ++ "/export",
   pool ++ "/export/home", pool ++ "/export/home/" ++ userName]

/-- The mountpoints the specification lists for the five datasets: legacy,
"/", "/export", inherited, inherited (`none` is inherited). -/
def spec_mountpoints : List (Option String) :=
  [some "legacy", some "/", some "/export", none, none]

/-- An environment in which every call succeeds. -/
def ZfsEnv.ok : ZfsEnv :=
  { alloc_vdev := 0, add_vdev_path := 0, add_vdev_type := 0, alloc_nvroot := 0,
    add_nvroot_type := 0, add_nvroot_children := 0, alloc_props := 0, add_altroot := 0,
    alloc_fsprops := 0, add_pool_mountpoint := 0, zpool_create := 0,
    zfs_path_to_zhandle := some 1, zfs_prop_set := 0, add_legacy := 0, create_ROOT := 0,
    add_slash := 0, create_rootfs := 0, add_export := 0, create_export := 0,
    add_home := 0, create_home := 0, add_user := 0, create_user := 0 }

/-! ## The install sequence of `main` (`main.c`) -/

/-- The platform constant `B_FALSE`, the first member of `boolean_t`. -/
def B_FALSE : Int := 0

/-- The platform constant `B_TRUE`, the second member of `boolean_t`. -/
def B_TRUE : Int := 1

/-- The exit status `EXIT_SUCCESS` of `stdlib.h`. -/
def EXIT_SUCCESS : Int := 0

/-- The exit status `EXIT_FAILURE` of `stdlib.h`. -/
def EXIT_FAILURE : Int := 1

/-- The stages `main` invokes once the user has confirmed, in source order. -/
inductive Stage where
  | disk_in_use
  | create_root_partition
  | create_root_vtoc
  | create_root_pool
  | create_root_datasets
  | set_root_bootfs
  | mount_root_datasets
  | copy_files
  | copy_grub
  | config_grub
  | config_devfs
  | config_bootadm
  | unmount_root_datasets
  | export_root_pool
deriving DecidableEq, Repr

/-- Outcomes of the stages of `main`.  The Partition Writer and the Slice
Table Builder are the functions of `disk.c` run on their environments; the
other stages are not part of the sources and are given by their return
value. -/
structure InstallEnv where
  disk_in_use : Int
  parted : PartedEnv
  vtoc : VtocEnv
  create_root_pool : Int
  create_root_datasets : Int
  set_root_bootfs : Int
  mount_root_datasets : Int
  copy_files : Int
  copy_grub : Int
  config_grub : Int
  config_devfs : Int
  config_bootadm : Int
  unmount_root_datasets : Int
  export_root_pool : Int

/-- The end of `main` under `if (unmount == B_TRUE)`. -/
def main_unmount (unmount : Bool) (e : InstallEnv) (done : List Stage) : Run Stage :=
  if unmount then
    let u1 := done ++ [.unmount_root_datasets]
    if e.unmount_root_datasets = B_FALSE then ⟨EXIT_FAILURE, u1⟩
    else
      let u2 := u1 ++ [.export_root_pool]
      if e.export_root_pool = B_FALSE then ⟨EXIT_FAILURE, u2⟩
      else ⟨EXIT_SUCCESS, u2⟩
  else ⟨EXIT_SUCCESS, done⟩

/-- The stages of `main` from the pool creation to the boot archive. -/
def main_filesystem (unmount : Bool) (e : InstallEnv) (done : List Stage) : Run Stage :=
  let s1 := done ++ [.create_root_pool]
  if e.create_root_pool = B_FALSE then ⟨EXIT_FAILURE, s1⟩
  else
    let s2 := s1 ++ [.create_root_datasets]
    if e.create_root_datasets = B_FALSE then ⟨EXIT_FAILURE, s2⟩
    else
      let s3 := s2 ++ [.set_root_bootfs]
      if e.set_root_bootfs = B_FALSE then ⟨EXIT_FAILURE, s3⟩
      else
        let s4 := s3 ++ [.mount_root_datasets]
        if e.mount_root_datasets = B_FALSE then ⟨EXIT_FAILURE, s4⟩
        else
          let s5 := s4 ++ [.copy_files]
          if e.copy_files = B_FALSE then ⟨EXIT_FAILURE, s5⟩
          else
            let s6 := s5 ++ [.copy_grub]
            if e.copy_grub = B_FALSE then ⟨EXIT_FAILURE, s6⟩
            else
              let s7 := s6 ++ [.config_grub]
              if e.config_grub = B_FALSE then ⟨EXIT_FAILURE, s7⟩
              else
                let s8 := s7 ++ [.config_devfs]
                if e.config_devfs = B_FALSE then ⟨EXIT_FAILURE, s8⟩
                else
                  let s9 := s8 ++ [.config_bootadm]
                  if e.config_bootadm = B_FALSE then ⟨EXIT_FAILURE, s9⟩
                  else main_unmount unmount e s9

/-- Embedding of `main` from `disk_in_use` on: the install sequence.  The
flag `unmount` is the variable cleared by option `-u`. -/
def main_install (sparc : Bool) (disk : String) (unmount : Bool) (e : InstallEnv) : Run Stage :=
  if e.disk_in_use = B_TRUE then ⟨EXIT_FAILURE, [.disk_in_use]⟩
  else if (create_root_partition sparc disk e.parted).ret = B_FALSE then
    ⟨EXIT_FAILURE, [.disk_in_use, .create_root_partition]⟩
  else if (create_root_vtoc sparc disk e.vtoc).ret = B_FALSE then
    ⟨EXIT_FAILURE, [.disk_in_use, .create_root_partition, .create_root_vtoc]⟩
  else
    main_filesystem unmount e [.disk_in_use, .create_root_partition, .create_root_vtoc]

/-! ## Example inputs -/

/-- A slice table as it may be found on a used disk: every entry is in use. -/
def stale_vtoc : extvtoc :=
  { v_sanity := 1611490014, v_version := 1, v_sectorsz := 512, v_nparts := 16,
    v_part := fun i => ⟨4, 1, 0, 1000 * i.val, 1000⟩ }

/-- A device on which every call of `create_root_vtoc` succeeds: `open`
returns descriptor 3 and `read_extvtoc` the index of the slice opened. -/
def vtoc_env_ok (g : dk_geom) : VtocEnv :=
  { open_ret := 3, ioctl_ret := 0, geo := g, read_ret := 16, vtoc := stale_vtoc,
    write_ret := 0 }

/-- A device whose slice table cannot be read: `read_extvtoc` returns
`VT_ERROR` (-1); all other calls succeed. -/
def vtoc_env_unreadable (g : dk_geom) : VtocEnv :=
  { vtoc_env_ok g with read_ret := -1 }

/-- A device opened on slice 0: `read_extvtoc` succeeds and returns 0. -/
def vtoc_env_slice0 (g : dk_geom) : VtocEnv :=
  { vtoc_env_ok g with read_ret := 0 }

/-- A libparted environment in which every call succeeds on a device of
1000 sectors. -/
def parted_env_ok : PartedEnv :=
  { device_get := some ⟨1, 1000⟩, disk_type_get := some 2, disk_new_fresh := some 3,
    file_system_type_get := some 4, partition_new := some 5, partition_set_flag := 1,
    device_get_constraint := some 6, disk_add_partition := 1, disk_commit_to_dev := 1 }

/-- A libparted environment in which the device constraint cannot be
obtained: `ped_device_get_constraint` returns `NULL`; every other call
succeeds. -/
def parted_env_no_constraint : PartedEnv :=
  { parted_env_ok with device_get_constraint := none }

/-- The namespace of the specification's example, on sparc: the first and
third opens succeed. -/
def example_namespace : List Probe :=
  [⟨"c0t0d0s2", none, true, true⟩, ⟨"c0t0d0p0", some 2, true, true⟩,
   ⟨"c0t1d0s2", none, true, true⟩, ⟨"rpool", some 2, true, true⟩]

/-- A libparted environment in which the device handle cannot be obtained:
`ped_device_get` returns `NULL`. -/
def parted_env_no_device : PartedEnv :=
  { parted_env_ok with device_get := none }

/-- A device whose slice table cannot be written: `write_extvtoc` returns -1. -/
def vtoc_env_unwritable (g : dk_geom) : VtocEnv :=
  { vtoc_env_ok g with write_ret := -1 }

/-- An install environment for the two disk stages in which the disk is
not in use and every later stage returns `B_TRUE`. -/
def install_env (p : PartedEnv) (v : VtocEnv) : InstallEnv :=
  { disk_in_use := B_FALSE, parted := p, vtoc := v, create_root_pool := B_TRUE,
    create_root_datasets := B_TRUE, set_root_bootfs := B_TRUE, mount_root_datasets := B_TRUE,
    copy_files := B_TRUE, copy_grub := B_TRUE, config_grub := B_TRUE, config_devfs := B_TRUE,
    config_bootadm := B_TRUE, unmount_root_datasets := B_TRUE, export_root_pool := B_TRUE }

/-! ## The slice table loop -/

theorem loop_step_apply (cs ds : Nat) (parts : Fin V_NUMPAR → extpartition) (m : Nat)
    (j : Fin V_NUMPAR) :
    loop_step cs ds parts m j =
      if j.val = m then switch_slice m cs ds (parts j) else parts j := by
  unfold loop_step
  by_cases hm : m < V_NUMPAR
  · rw [dif_pos hm]
    by_cases hj : j = ⟨m, hm⟩
    · subst hj
      simp
    · have hne : j.val ≠ m := fun h => hj (Fin.ext h)
      rw [Function.update_noteq hj, if_neg hne]
  · rw [dif_neg hm]
    have hne : j.val ≠ m := by have := j.isLt; omega
    rw [if_neg hne]

theorem foldl_loop_step (cs ds : Nat) (n : Nat) (parts : Fin V_NUMPAR → extpartition)
    (i : Fin V_NUMPAR) :
    (List.range n).foldl (loop_step cs ds) parts i =
      if i.val < n then switch_slice i.val cs ds (parts i) else parts i := by
  induction n with
  | zero => simp
  | succ n ih =>
    rw [List.range_succ, List.foldl_append]
    simp only [List.foldl_cons, List.foldl_nil]
    rw [loop_step_apply, ih]
    by_cases h1 : i.val = n
    · have h2 : ¬ i.val < n := by omega
      have h3 : i.val < n + 1 := by omega
      rw [if_pos h1, if_neg h2, if_pos h3, h1]
    · by_cases h2 : i.val < n
      · have h3 : i.val < n + 1 := by omega
        rw [if_neg h1, if_pos h2, if_pos h3]
      · have h3 : ¬ i.val < n + 1 := by omega
        rw [if_neg h1, if_neg h2, if_neg h3]

/-- After the loop every slice holds what the `switch` assigns to it. -/
theorem fill_slices_v_part (cs ds : Nat) (v : extvtoc) (i : Fin V_NUMPAR) :
    (fill_slices cs ds v).v_part i = switch_slice i.val cs ds (v.v_part i) := by
  unfold fill_slices
  simp only
  rw [foldl_loop_step]
  simp [i.isLt]

/-- A table handed to `write_extvtoc` is the table in `vtoc` after the loop. -/
theorem written_tables_eq (sparc : Bool) (disk : String) (e : VtocEnv) (t : extvtoc)
    (h : t ∈ written_tables (create_root_vtoc sparc disk e).calls) :
    t = fill_slices (cylinder_size e.geo) (disk_size e.geo) e.vtoc := by
  unfold create_root_vtoc at h
  simp only at h
  split_ifs at h <;> simp [written_tables] at h <;> exact h

/-- The sizes are exact when the products fit the variables that hold them. -/
theorem sizes_exact_of_fit (g : dk_geom) (hc : g.dkg_nhead * g.dkg_nsect < 2 ^ 16)
    (hd : g.dkg_ncyl * g.dkg_nhead * g.dkg_nsect < 2 ^ 32) :
    cylinder_size g = g.dkg_nhead * g.dkg_nsect ∧
    disk_size g = g.dkg_ncyl * (g.dkg_nhead * g.dkg_nsect) := by
  unfold cylinder_size disk_size
  rw [Nat.mod_eq_of_lt hc, Nat.mod_eq_of_lt hd, Nat.mul_assoc]
  exact ⟨rfl, rfl⟩

/-- When heads × sectors fits 16 bits, the disk size fits 32 bits and
there is at least one cylinder, every table written has the exact plan:
slice 8 is the first cylinder, slice 0 runs from its end to the end of the
disk, and slice 2 covers the disk. -/
theorem written_plan_exact_of_fit (sparc : Bool) (disk : String) (e : VtocEnv) (t : extvtoc)
    (h : t ∈ written_tables (create_root_vtoc sparc disk e).calls)
    (hc : e.geo.dkg_nhead * e.geo.dkg_nsect < 2 ^ 16)
    (hd : e.geo.dkg_ncyl * e.geo.dkg_nhead * e.geo.dkg_nsect < 2 ^ 32)
    (h1 : 1 ≤ e.geo.dkg_ncyl) :
    (t.v_part 0).p_start = e.geo.dkg_nhead * e.geo.dkg_nsect ∧
    (t.v_part 0).p_size =
      e.geo.dkg_ncyl * (e.geo.dkg_nhead * e.geo.dkg_nsect) - e.geo.dkg_nhead * e.geo.dkg_nsect ∧
    (t.v_part 2).p_start = 0 ∧
    (t.v_part 2).p_size = e.geo.dkg_ncyl * (e.geo.dkg_nhead * e.geo.dkg_nsect) ∧
    (t.v_part 8).p_start = 0 ∧
    (t.v_part 8).p_size = e.geo.dkg_nhead * e.geo.dkg_nsect ∧
    (t.v_part 8).p_start + (t.v_part 8).p_size = (t.v_part 0).p_start ∧
    (t.v_part 0).p_start + (t.v_part 0).p_size = (t.v_part 2).p_start + (t.v_part 2).p_size := by
  have ht := written_tables_eq sparc disk e t h
  subst ht
  obtain ⟨hcs, hds⟩ := sizes_exact_of_fit e.geo hc hd
  have hle : e.geo.dkg_nhead * e.geo.dkg_nsect ≤
      e.geo.dkg_ncyl * (e.geo.dkg_nhead * e.geo.dkg_nsect) :=
    Nat.le_mul_of_pos_left _ h1
  have hlt : e.geo.dkg_ncyl * (e.geo.dkg_nhead * e.geo.dkg_nsect) < 2 ^ 32 := by
    rw [← Nat.mul_assoc]; exact hd
  have hsub : (e.geo.dkg_ncyl * (e.geo.dkg_nhead * e.geo.dkg_nsect) + 2 ^ 32 -
      e.geo.dkg_nhead * e.geo.dkg_nsect) % 2 ^ 32 =
      e.geo.dkg_ncyl * (e.geo.dkg_nhead * e.geo.dkg_nsect) -
        e.geo.dkg_nhead * e.geo.dkg_nsect := by
    generalize e.geo.dkg_ncyl * (e.geo.dkg_nhead * e.geo.dkg_nsect) = d at hle hlt
    generalize e.geo.dkg_nhead * e.geo.dkg_nsect = c at hle
    norm_num at hlt ⊢
    omega
  simp only [fill_slices_v_part, hcs, hds]
  simp only [switch_slice, Fin.val_zero, hsub]
  refine ⟨trivial, trivial, trivial, trivial, trivial, trivial, ?_, ?_⟩
  · exact Nat.zero_add _
  · rw [Nat.zero_add]
    exact Nat.add_sub_cancel' hle

/-- The return value of `create_root_vtoc` and the table it writes, for
every outcome of its calls. -/
theorem create_root_vtoc_outcome (sparc : Bool) (disk : String) (e : VtocEnv) :
    ((create_root_vtoc sparc disk e).ret = 0 ∨ (create_root_vtoc sparc disk e).ret = -1) ∧
    ((create_root_vtoc sparc disk e).ret = 0 ↔
      (e.open_ret ≠ -1 ∧ e.ioctl_ret ≠ -1 ∧ e.read_ret ≠ 0 ∧ 0 ≤ e.write_ret)) ∧
    ((e.open_ret = -1 ∨ e.ioctl_ret = -1 ∨ e.read_ret = 0) →
      written_tables (create_root_vtoc sparc disk e).calls = []) ∧
    ((e.open_ret ≠ -1 ∧ e.ioctl_ret ≠ -1 ∧ e.read_ret ≠ 0) →
      written_tables (create_root_vtoc sparc disk e).calls =
        [fill_slices (cylinder_size e.geo) (disk_size e.geo) e.vtoc]) := by
  unfold create_root_vtoc
  simp only
  split_ifs <;> simp_all [written_tables]

/-! ## Claims on `create_root_vtoc` -/

/-- C1: on the well-formed geometry of 2 cylinders, 255 heads and 504
sectors per track (all calls succeeding) one cylinder has 128520 sectors
and the disk 257040, yet the single table written has slice 0 starting at
sector 62984 with 194056 sectors: `cylinder_size` kept only the low 16 bits
of heads × sectors, so start and size are not cylinderSize and
diskSize − cylinderSize. -/
theorem create_root_vtoc_slice0_truncated :
    (⟨2, 255, 504⟩ : dk_geom).wf ∧
    (written_tables (create_root_vtoc false "c0t0d0" (vtoc_env_ok ⟨2, 255, 504⟩)).calls).map
        (fun t => ((t.v_part 0).p_start, (t.v_part 0).p_size)) = [(62984, 194056)] ∧
    cylinder_size ⟨2, 255, 504⟩ = 62984 ∧
    (255 * 504 = 128520 ∧ 2 * (255 * 504) - 255 * 504 = 128520) ∧
    cylinder_size ⟨2, 255, 504⟩ ≠ 255 * 504 := by
  decide

/-- C2: on the well-formed geometry of 65535 cylinders, 255 heads and 504
sectors per track (all calls succeeding) the disk has 8422558200 sectors,
yet the single table written has slice 2 (tagged backup, unmountable,
start 0) with size 4127590904: `disk_size` kept only the low 32 bits of
cylinders × heads × sectors, and no 32-bit value equals the product. -/
theorem create_root_vtoc_slice2_truncated :
    (⟨65535, 255, 504⟩ : dk_geom).wf ∧
    (written_tables (create_root_vtoc false "c0t0d0" (vtoc_env_ok ⟨65535, 255, 504⟩)).calls).map
        (fun t => (t.v_part 2).plan) = [(V_BACKUP, V_UNMNT, 0, 4127590904)] ∧
    65535 * 255 * 504 = 8422558200 ∧
    disk_size ⟨65535, 255, 504⟩ < 2 ^ 32 ∧ 2 ^ 32 ≤ 65535 * 255 * 504 ∧
    disk_size ⟨65535, 255, 504⟩ ≠ 65535 * 255 * 504 := by
  decide

/-- C3: on the well-formed geometry of 2 cylinders, 255 heads and 504
sectors per track (all calls succeeding) one cylinder has 128520 sectors,
yet the single table written has slice 8 (tagged boot, unmountable,
start 0) with size 62984 and slice 0 starting at 62984: slice 8 is not one
cylinder long and slice 0 starts inside the first cylinder. -/
theorem create_root_vtoc_slice8_truncated :
    (⟨2, 255, 504⟩ : dk_geom).wf ∧ 1 ≤ (⟨2, 255, 504⟩ : dk_geom).dkg_ncyl ∧
    (written_tables (create_root_vtoc false "c0t0d0" (vtoc_env_ok ⟨2, 255, 504⟩)).calls).map
        (fun t => ((t.v_part 8).plan, (t.v_part 0).p_start)) =
      [((V_BOOT, V_UNMNT, 0, 62984), 62984)] ∧
    255 * 504 = 128520 ∧ 62984 < 255 * 504 := by
  decide

/-- In every table `create_root_vtoc` writes, whatever the table read held,
each slice other than 0, 2 and 8 is tagged unassigned with flags, start
and size 0; slices 0, 2 and 8 hold the root, backup and boot entries built
from the variables `cylinder_size` and `disk_size`; and the slices whose
entry is not the zero entry are exactly 0, 2 and 8. -/
theorem create_root_vtoc_other_slices_zeroed (sparc : Bool) (disk : String) (e : VtocEnv)
    (t : extvtoc) (h : t ∈ written_tables (create_root_vtoc sparc disk e).calls) :
    (∀ i : Fin V_NUMPAR, i.val ≠ 0 → i.val ≠ 2 → i.val ≠ 8 →
      (t.v_part i).p_tag = V_UNASSIGNED ∧ (t.v_part i).p_flag = 0 ∧
      (t.v_part i).p_start = 0 ∧ (t.v_part i).p_size = 0) ∧
    (t.v_part 0).plan = (V_ROOT, 0, cylinder_size e.geo,
      (disk_size e.geo + 2 ^ 32 - cylinder_size e.geo) % 2 ^ 32) ∧
    (t.v_part 2).plan = (V_BACKUP, V_UNMNT, 0, disk_size e.geo) ∧
    (t.v_part 8).plan = (V_BOOT, V_UNMNT, 0, cylinder_size e.geo) ∧
    (∀ i : Fin V_NUMPAR,
      (t.v_part i).plan ≠ (V_UNASSIGNED, 0, 0, 0) ↔ (i.val = 0 ∨ i.val = 2 ∨ i.val = 8)) := by
  have ht := written_tables_eq sparc disk e t h
  subst ht
  have key : ∀ i : Fin V_NUMPAR, i.val ≠ 0 → i.val ≠ 2 → i.val ≠ 8 →
      ((fill_slices (cylinder_size e.geo) (disk_size e.geo) e.vtoc).v_part i).plan =
        (V_UNASSIGNED, 0, 0, 0) := by
    intro i h0 h2 h8
    rw [fill_slices_v_part]
    unfold switch_slice extpartition.plan
    split <;> first | contradiction | rfl
  refine ⟨?_, ?_, ?_, ?_, ?_⟩
  · intro i h0 h2 h8
    have hk := key i h0 h2 h8
    simp only [extpartition.plan, Prod.mk.injEq] at hk
    exact hk
  · rw [fill_slices_v_part]; rfl
  · rw [fill_slices_v_part]; rfl
  · rw [fill_slices_v_part]; rfl
  · intro i
    constructor
    · intro hne
      by_contra hcon
      push_neg at hcon
      exact hne (key i hcon.1 hcon.2.1 hcon.2.2)
    · intro hi
      rw [fill_slices_v_part]
      rcases hi with hi | hi | hi <;> rw [hi] <;>
        simp [switch_slice, extpartition.plan, V_ROOT, V_BACKUP, V_BOOT, V_UNASSIGNED]

/-- When heads × sectors fits 16 bits, the disk size fits 32 bits and
there is at least one cylinder, every slice of every table written holds
the entry of the specified plan. -/
theorem written_table_eq_spec_plan_of_fit (sparc : Bool) (disk : String) (e : VtocEnv)
    (t : extvtoc) (h : t ∈ written_tables (create_root_vtoc sparc disk e).calls)
    (hc : e.geo.dkg_nhead * e.geo.dkg_nsect < 2 ^ 16)
    (hd : e.geo.dkg_ncyl * e.geo.dkg_nhead * e.geo.dkg_nsect < 2 ^ 32)
    (h1 : 1 ≤ e.geo.dkg_ncyl) (i : Fin V_NUMPAR) :
    (t.v_part i).plan = spec_slice_plan e.geo i.val := by
  have ht := written_tables_eq sparc disk e t h
  subst ht
  have hcs : cylinder_size e.geo = e.geo.dkg_nhead * e.geo.dkg_nsect := by
    unfold cylinder_size
    exact Nat.mod_eq_of_lt hc
  have hds : disk_size e.geo = e.geo.dkg_ncyl * e.geo.dkg_nhead * e.geo.dkg_nsect := by
    unfold disk_size
    exact Nat.mod_eq_of_lt hd
  have hle : e.geo.dkg_nhead * e.geo.dkg_nsect ≤
      e.geo.dkg_ncyl * e.geo.dkg_nhead * e.geo.dkg_nsect := by
    rw [Nat.mul_assoc]
    exact Nat.le_mul_of_pos_left _ h1
  have hsub : (e.geo.dkg_ncyl * e.geo.dkg_nhead * e.geo.dkg_nsect + 2 ^ 32 -
      e.geo.dkg_nhead * e.geo.dkg_nsect) % 2 ^ 32 =
      e.geo.dkg_ncyl * e.geo.dkg_nhead * e.geo.dkg_nsect -
        e.geo.dkg_nhead * e.geo.dkg_nsect := by
    generalize e.geo.dkg_ncyl * e.geo.dkg_nhead * e.geo.dkg_nsect = d at hle hd
    generalize e.geo.dkg_nhead * e.geo.dkg_nsect = c at hle
    norm_num at hd ⊢
    omega
  rw [fill_slices_v_part, hcs, hds]
  unfold switch_slice spec_slice_plan extpartition.plan
  split <;> simp only [hsub]

/-- C4: on the well-formed geometry of 2 cylinders, 255 heads and 504
sectors per track, with a table read in which every slice is in use and
all calls succeeding, the single table written has every slice other than
0, 2 and 8 zeroed and slice 2 as planned, but slices 0 and 8 do not hold
the planned entries: the plan is root from 128520 spanning 128520 and
boot spanning 128520, the table has root from 62984 spanning 194056 and
boot spanning 62984. -/
theorem create_root_vtoc_plan_not_written :
    (⟨2, 255, 504⟩ : dk_geom).wf ∧
    (List.finRange V_NUMPAR).map (fun i => (stale_vtoc.v_part i).plan) =
      (List.range V_NUMPAR).map (fun i => (4, 1, 1000 * i, 1000)) ∧
    (written_tables (create_root_vtoc false "c0t0d0" (vtoc_env_ok ⟨2, 255, 504⟩)).calls).map
        (fun t => (List.finRange V_NUMPAR).map (fun i => (t.v_part i).plan)) =
      [[(V_ROOT, 0, 62984, 194056), (0, 0, 0, 0), (V_BACKUP, V_UNMNT, 0, 257040), (0, 0, 0, 0),
        (0, 0, 0, 0), (0, 0, 0, 0), (0, 0, 0, 0), (0, 0, 0, 0), (V_BOOT, V_UNMNT, 0, 62984),
        (0, 0, 0, 0), (0, 0, 0, 0), (0, 0, 0, 0), (0, 0, 0, 0), (0, 0, 0, 0), (0, 0, 0, 0),
        (0, 0, 0, 0)]] ∧
    (List.range V_NUMPAR).map (spec_slice_plan ⟨2, 255, 504⟩) =
      [(V_ROOT, 0, 128520, 128520), (0, 0, 0, 0), (V_BACKUP, V_UNMNT, 0, 257040), (0, 0, 0, 0),
       (0, 0, 0, 0), (0, 0, 0, 0), (0, 0, 0, 0), (0, 0, 0, 0), (V_BOOT, V_UNMNT, 0, 128520),
       (0, 0, 0, 0), (0, 0, 0, 0), (0, 0, 0, 0), (0, 0, 0, 0), (0, 0, 0, 0), (0, 0, 0, 0),
       (0, 0, 0, 0)] ∧
    (written_tables (create_root_vtoc false "c0t0d0" (vtoc_env_ok ⟨2, 255, 504⟩)).calls).map
        (fun t => decide ((t.v_part 0).plan = spec_slice_plan ⟨2, 255, 504⟩ 0)) = [false] ∧
    (written_tables (create_root_vtoc false "c0t0d0" (vtoc_env_ok ⟨2, 255, 504⟩)).calls).map
        (fun t => decide ((t.v_part 8).plan = spec_slice_plan ⟨2, 255, 504⟩ 8)) = [false] := by
  decide

/-- C5: when `read_extvtoc` fails with -1 and the other calls succeed,
`create_root_vtoc` returns 0 and hands one table to `write_extvtoc`; when
`read_extvtoc` succeeds with slice index 0 it returns -1 and writes no
table. -/
theorem create_root_vtoc_read_check_inverted :
    (create_root_vtoc false "c0t0d0" (vtoc_env_unreadable ⟨1024, 255, 63⟩)).ret = 0 ∧
    (written_tables
      (create_root_vtoc false "c0t0d0" (vtoc_env_unreadable ⟨1024, 255, 63⟩)).calls).length = 1 ∧
    (vtoc_env_unreadable ⟨1024, 255, 63⟩).read_ret < 0 ∧
    (create_root_vtoc false "c0t0d0" (vtoc_env_slice0 ⟨1024, 255, 63⟩)).ret = -1 ∧
    (written_tables
      (create_root_vtoc false "c0t0d0" (vtoc_env_slice0 ⟨1024, 255, 63⟩)).calls).length = 0 ∧
    0 ≤ (vtoc_env_slice0 ⟨1024, 255, 63⟩).read_ret := by
  decide

/-! ## Claims on `create_root_partition` -/

/-- For every outcome of the libparted calls, `create_root_partition`
issues at most one commit and creates at most one partition; a commit is
issued only as the last of exactly these calls: device handle, table type
"msdos", fresh table of that type on the device, file system type
"solaris", one partition from 0 to length − 1, boot flag set to 1 with
success, the device constraint queried, the partition added with success
under whatever the query returned, `NULL` included; it returns 0 or -1, 0
exactly when the commit was issued and succeeded; and when a tested call
fails it returns -1 without a commit. -/
theorem create_root_partition_single_commit (sparc : Bool) (disk : String) (e : PartedEnv) :
    ((create_root_partition sparc disk e).calls.countP PedCall.is_commit ≤ 1 ∧
     (create_root_partition sparc disk e).calls.countP PedCall.is_partition_new ≤ 1) ∧
    (∀ pdisk, PedCall.ped_disk_commit_to_dev pdisk ∈ (create_root_partition sparc disk e).calls →
      ∃ pdev ptype pfs ppart,
        e.device_get = some pdev ∧ e.disk_type_get = some ptype ∧
        e.disk_new_fresh = some pdisk ∧ e.file_system_type_get = some pfs ∧
        e.partition_new = some ppart ∧ e.partition_set_flag ≠ 0 ∧ e.disk_add_partition ≠ 0 ∧
        (create_root_partition sparc disk e).calls =
          [.ped_device_get (whole_disk_path sparc disk), .ped_disk_type_get "msdos",
           .ped_disk_new_fresh pdev.handle ptype, .ped_file_system_type_get "solaris",
           .ped_partition_new_normal pdisk pfs 0 (pdev.length - 1),
           .ped_partition_set_flag_boot ppart 1,
           .ped_device_get_constraint pdev.handle,
           .ped_disk_add_partition pdisk ppart e.device_get_constraint,
           .ped_disk_commit_to_dev pdisk]) ∧
    ((create_root_partition sparc disk e).ret = 0 ∨ (create_root_partition sparc disk e).ret = -1) ∧
    ((create_root_partition sparc disk e).ret = 0 ↔
      ((∃ pdisk, PedCall.ped_disk_commit_to_dev pdisk ∈ (create_root_partition sparc disk e).calls) ∧
        e.disk_commit_to_dev ≠ 0)) ∧
    ((e.device_get = none ∨ e.disk_type_get = none ∨ e.disk_new_fresh = none ∨
        e.file_system_type_get = none ∨ e.partition_new = none ∨ e.partition_set_flag = 0 ∨
        e.disk_add_partition = 0) →
      (create_root_partition sparc disk e).ret = -1 ∧
      (create_root_partition sparc disk e).calls.countP PedCall.is_commit = 0) := by
  obtain ⟨dg, dt, df, ft, pn, sf, gc, ap, cm⟩ := e
  unfold create_root_partition
  simp only
  cases dg <;> cases dt <;> cases df <;> cases ft <;> cases pn <;>
    simp [PedCall.is_commit, PedCall.is_partition_new, List.countP_cons]
  split_ifs <;> simp_all [PedCall.is_commit, PedCall.is_partition_new, List.countP_cons]

/-- C6: when `ped_device_get_constraint` returns `NULL` and every other
libparted call succeeds, `create_root_partition` does not fail: it passes
the null constraint to `ped_disk_add_partition`, commits the table and
returns 0, so the table is committed although the partition was not added
under the constraint of the device. -/
theorem create_root_partition_null_constraint_committed :
    parted_env_no_constraint.device_get_constraint = none ∧
    (create_root_partition false "c0t0d0" parted_env_no_constraint).ret = 0 ∧
    (create_root_partition false "c0t0d0" parted_env_no_constraint).calls =
      [.ped_device_get "/dev/rdsk/c0t0d0p0", .ped_disk_type_get "msdos",
       .ped_disk_new_fresh 1 2, .ped_file_system_type_get "solaris",
       .ped_partition_new_normal 3 4 0 999, .ped_partition_set_flag_boot 5 1,
       .ped_device_get_constraint 1, .ped_disk_add_partition 3 5 none,
       .ped_disk_commit_to_dev 3] := by
  decide

/-- When every libparted call succeeds on a device of 1000 sectors the table
is committed once, after one bootable partition from 0 to 999 was added. -/
theorem create_root_partition_ok_run :
    (create_root_partition false "c0t0d0" parted_env_ok).ret = 0 ∧
    (create_root_partition false "c0t0d0" parted_env_ok).calls =
      [.ped_device_get "/dev/rdsk/c0t0d0p0", .ped_disk_type_get "msdos",
       .ped_disk_new_fresh 1 2, .ped_file_system_type_get "solaris",
       .ped_partition_new_normal 3 4 0 999, .ped_partition_set_flag_boot 5 1,
       .ped_device_get_constraint 1, .ped_disk_add_partition 3 5 (some 6),
       .ped_disk_commit_to_dev 3] := by
  decide

/-! ## The enumeration loop -/

/-- Copying fewer bytes than the name has copies a prefix of the name and
no terminator. -/
theorem strncpy_eq_take (src : String) (n : Nat) (h : n ≤ src.length) :
    strncpy src n = src.data.take n := by
  unfold strncpy char_at
  apply List.ext_getElem
  · simp only [List.length_map, List.length_range, List.length_take]
    exact (Nat.min_eq_left h).symm
  · intro i h1 h2
    have hi : i < n := by simpa using h1
    have hl : i < src.data.length := Nat.lt_of_lt_of_le hi h
    simp [List.getD_eq_getElem?_getD, List.getElem?_eq_getElem hl]

/-- Without allocation failure the loop appends one block per live entry,
in order, and leaves `disks` as it was when there is none. -/
theorem readdir_loop_spec (sparc : Bool) (entries : List Probe)
    (hal : ∀ dp ∈ entries, dp.realloc_ok = true ∧ dp.malloc_ok = true)
    (disks : Option (List CBuf)) :
    readdir_loop sparc entries disks =
      some (if entries.filter (Probe.is_live_disk sparc) = [] then disks
            else some (disks.getD [] ++
              (entries.filter (Probe.is_live_disk sparc)).map Probe.block)) := by
  induction entries generalizing disks with
  | nil => simp [readdir_loop]
  | cons dp rest ih =>
    have hrest : ∀ dp ∈ rest, dp.realloc_ok = true ∧ dp.malloc_ok = true :=
      fun d hd => hal d (List.mem_cons_of_mem _ hd)
    obtain ⟨hr, hm⟩ := hal dp (List.mem_cons_self _ _)
    unfold readdir_loop
    by_cases hskip : not_whole_disk sparc dp.d_name = true
    · have hl : Probe.is_live_disk sparc dp = false := by simp [Probe.is_live_disk, hskip]
      rw [if_pos hskip, ih hrest, List.filter_cons_of_neg (by simp [hl])]
    · rw [if_neg hskip]
      cases ho : dp.open_errno with
      | some en =>
        have hl : Probe.is_live_disk sparc dp = false := by simp [Probe.is_live_disk, ho]
        simp only
        rw [ih hrest, List.filter_cons_of_neg (by simp [hl])]
      | none =>
        have hl : Probe.is_live_disk sparc dp = true := by
          simp [Probe.is_live_disk, ho, hskip]
        simp only [hr, hm, Bool.not_true, Bool.false_eq_true, if_false]
        rw [ih hrest, List.filter_cons_of_pos hl]
        by_cases hf : rest.filter (Probe.is_live_disk sparc) = []
        · simp [hf, Probe.block]
        · simp [hf, Probe.block]

/-- Without allocation failure `get_suitable_disks` returns, in namespace
order, one block per live entry holding the name without its last two
characters and without a terminator; with no live entry it stores through
the null pointer. -/
theorem get_suitable_disks_spec (sparc : Bool) (entries : List Probe)
    (hal : ∀ dp ∈ entries, dp.realloc_ok = true ∧ dp.malloc_ok = true) :
    get_suitable_disks sparc (some entries) =
      (if entries.filter (Probe.is_live_disk sparc) = [] then DiskList.null_store
       else DiskList.array ((entries.filter (Probe.is_live_disk sparc)).map Probe.block)) ∧
    (∀ dp ∈ entries.filter (Probe.is_live_disk sparc),
      dp.block.bytes = dp.d_name.data.take (dp.d_name.length - 2) ∧
      (NUL ∉ dp.d_name.data → dp.block.c_string = none)) := by
  constructor
  · unfold get_suitable_disks
    simp only
    rw [readdir_loop_spec sparc entries hal none]
    by_cases hf : entries.filter (Probe.is_live_disk sparc) = []
    · simp [hf]
    · simp [hf]
  · intro dp _
    have hb : dp.block.bytes = dp.d_name.data.take (dp.d_name.length - 2) :=
      strncpy_eq_take dp.d_name _ (Nat.sub_le _ _)
    refine ⟨hb, ?_⟩
    intro hnul
    unfold CBuf.c_string
    rw [if_neg]
    rw [hb]
    exact fun hmem => hnul (List.mem_of_mem_take hmem)

/-! ## Claims on `get_suitable_disks` -/

/-- C7: on sparc, for the namespace "c0t0d0s2", "c0t0d0p0", "c0t1d0s2",
"rpool" with the first and third opens succeeding, `get_suitable_disks`
returns two blocks of six bytes holding c0t0d0 and c0t1d0 with no
terminating NUL: neither block holds a C string, whereas the same bytes
followed by a NUL would hold the string "c0t0d0". -/
theorem get_suitable_disks_blocks_unterminated :
    get_suitable_disks true (some example_namespace) =
      .array [⟨['c', '0', 't', '0', 'd', '0']⟩, ⟨['c', '0', 't', '1', 'd', '0']⟩] ∧
    (CBuf.mk ['c', '0', 't', '0', 'd', '0']).c_string = none ∧
    (CBuf.mk ['c', '0', 't', '1', 'd', '0']).c_string = none ∧
    (CBuf.mk ['c', '0', 't', '0', 'd', '0', NUL]).c_string = some "c0t0d0" := by
  decide

/-- C8: when the namespace opens and no entry yields a disk (it is empty,
or no name matches, or the only matching entry fails its probe with
ENOENT), `get_suitable_disks` stores the terminator through the null
`disks` pointer instead of returning an empty sequence. -/
theorem get_suitable_disks_none_found_null_store :
    get_suitable_disks true (some []) = .null_store ∧
    get_suitable_disks false (some []) = .null_store ∧
    get_suitable_disks true (some [⟨"rpool", none, true, true⟩]) = .null_store ∧
    get_suitable_disks true (some [⟨"c0t0d0s2", some 2, true, true⟩]) = .null_store := by
  decide

/-! ## The calls of `create_root_filesystem` -/

theorem dataset_creates_append (l1 l2 : List ZfsCall) :
    dataset_creates (l1 ++ l2) = dataset_creates l1 ++ dataset_creates l2 := by
  induction l1 with
  | nil => rfl
  | cons c cs ih => cases c <;> simp [dataset_creates, ih]

theorem dataset_creates_map (l : List (String × Option nvlist)) :
    dataset_creates (l.map (fun p => ZfsCall.zfs_create p.1 p.2)) = l := by
  induction l with
  | nil => rfl
  | cons p ps ih => simp [dataset_creates, ih]

/-- The dataset creates: which calls are issued for each outcome. -/
theorem create_datasets_spec (e : ZfsEnv) (fs : nvlist) (done : List ZfsCall) :
    ∃ n, n ≤ 5 ∧
      (create_datasets e fs done).calls = done ++
        (([("syspool/ROOT", some (nvlist_add_string fs "mountpoint" "legacy")),
           ("syspool/ROOT/schillix",
             some (nvlist_add_string (nvlist_add_string fs "mountpoint" "legacy") "mountpoint" "/")),
           ("syspool/export",
             some (nvlist_add_string (nvlist_add_string (nvlist_add_string fs "mountpoint" "legacy")
               "mountpoint" "/") "mountpoint" "/export")),
           ("syspool/export/home", none),
           ("syspool/export/home/schillix", none)] : List (String × Option nvlist)).take n).map
          (fun p => ZfsCall.zfs_create p.1 p.2) ∧
      ((create_datasets e fs done).ret = 0 ∨ (create_datasets e fs done).ret = -1) ∧
      (∀ k, k < n → e.create_rets.getD k 0 ≠ 0 → n = k + 1 ∧ (create_datasets e fs done).ret = -1) ∧
      ((create_datasets e fs done).ret = 0 → (∀ x ∈ e.create_rets, x = 0) ∧ n = 5) := by
  by_cases h1 : e.add_legacy = 0
  swap
  · refine ⟨0, by norm_num, ?_, ?_, ?_, ?_⟩
    · simp [create_datasets, h1, ROOT_POOL, ROOT_NAME, ZFS_PROP_MOUNTPOINT, ZFS_MOUNTPOINT_LEGACY]
    · simp [create_datasets, h1]
    · intro k hk hne
      exact absurd hk (Nat.not_lt_zero k)
    · simp [create_datasets, h1, ZfsEnv.create_rets]
  by_cases h2 : e.create_ROOT = 0
  swap
  · refine ⟨1, by norm_num, ?_, ?_, ?_, ?_⟩
    · simp [create_datasets, h1, h2, ROOT_POOL, ROOT_NAME, ZFS_PROP_MOUNTPOINT, ZFS_MOUNTPOINT_LEGACY]
    · simp [create_datasets, h1, h2]
    · intro k hk hne
      interval_cases k
      all_goals simp_all [create_datasets, ZfsEnv.create_rets]
    · simp [create_datasets, h1, h2, ZfsEnv.create_rets]
  by_cases h3 : e.add_slash = 0
  swap
  · refine ⟨1, by norm_num, ?_, ?_, ?_, ?_⟩
    · simp [create_datasets, h1, h2, h3, ROOT_POOL, ROOT_NAME, ZFS_PROP_MOUNTPOINT, ZFS_MOUNTPOINT_LEGACY]
    · simp [create_datasets, h1, h2, h3]
    · intro k hk hne
      interval_cases k
      all_goals simp_all [create_datasets, ZfsEnv.create_rets]
    · simp [create_datasets, h1, h2, h3, ZfsEnv.create_rets]
  by_cases h4 : e.create_rootfs = 0
  swap
  · refine ⟨2, by norm_num, ?_, ?_, ?_, ?_⟩
    · simp [create_datasets, h1, h2, h3, h4, ROOT_POOL, ROOT_NAME, ZFS_PROP_MOUNTPOINT, ZFS_MOUNTPOINT_LEGACY]
    · simp [create_datasets, h1, h2, h3, h4]
    · intro k hk hne
      interval_cases k
      all_goals simp_all [create_datasets, ZfsEnv.create_rets]
    · simp [create_datasets, h1, h2, h3, h4, ZfsEnv.create_rets]
  by_cases h5 : e.add_export = 0
  swap
  · refine ⟨2, by norm_num, ?_, ?_, ?_, ?_⟩
    · simp [create_datasets, h1, h2, h3, h4, h5, ROOT_POOL, ROOT_NAME, ZFS_PROP_MOUNTPOINT, ZFS_MOUNTPOINT_LEGACY]
    · simp [create_datasets, h1, h2, h3, h4, h5]
    · intro k hk hne
      interval_cases k
      all_goals simp_all [create_datasets, ZfsEnv.create_rets]
    · simp [create_datasets, h1, h2, h3, h4, h5, ZfsEnv.create_rets]
  by_cases h6 : e.create_export = 0
  swap
  · refine ⟨3, by norm_num, ?_, ?_, ?_, ?_⟩
    · simp [create_datasets, h1, h2, h3, h4, h5, h6, ROOT_POOL, ROOT_NAME, ZFS_PROP_MOUNTPOINT, ZFS_MOUNTPOINT_LEGACY]
    · simp [create_datasets, h1, h2, h3, h4, h5, h6]
    · intro k hk hne
      interval_cases k
      all_goals simp_all [create_datasets, ZfsEnv.create_rets]
    · simp [create_datasets, h1, h2, h3, h4, h5, h6, ZfsEnv.create_rets]
  by_cases h7 : e.add_home = 0
  swap
  · refine ⟨3, by norm_num, ?_, ?_, ?_, ?_⟩
    · simp [create_datasets, h1, h2, h3, h4, h5, h6, h7, ROOT_POOL, ROOT_NAME, ZFS_PROP_MOUNTPOINT, ZFS_MOUNTPOINT_LEGACY]
    · simp [create_datasets, h1, h2, h3, h4, h5, h6, h7]
    · intro k hk hne
      interval_cases k
      all_goals simp_all [create_datasets, ZfsEnv.create_rets]
    · simp [create_datasets, h1, h2, h3, h4, h5, h6, h7, ZfsEnv.create_rets]
  by_cases h8 : e.create_home = 0
  swap
  · refine ⟨4, by norm_num, ?_, ?_, ?_, ?_⟩
    · simp [create_datasets, h1, h2, h3, h4, h5, h6, h7, h8, ROOT_POOL, ROOT_NAME, ZFS_PROP_MOUNTPOINT, ZFS_MOUNTPOINT_LEGACY]
    · simp [create_datasets, h1, h2, h3, h4, h5, h6, h7, h8]
    · intro k hk hne
      interval_cases k
      all_goals simp_all [create_datasets, ZfsEnv.create_rets]
    · simp [create_datasets, h1, h2, h3, h4, h5, h6, h7, h8, ZfsEnv.create_rets]
  by_cases h9 : e.add_user = 0
  swap
  · refine ⟨4, by norm_num, ?_, ?_, ?_, ?_⟩
    · simp [create_datasets, h1, h2, h3, h4, h5, h6, h7, h8, h9, ROOT_POOL, ROOT_NAME, ZFS_PROP_MOUNTPOINT, ZFS_MOUNTPOINT_LEGACY]
    · simp [create_datasets, h1, h2, h3, h4, h5, h6, h7, h8, h9]
    · intro k hk hne
      interval_cases k
      all_goals simp_all [create_datasets, ZfsEnv.create_rets]
    · simp [create_datasets, h1, h2, h3, h4, h5, h6, h7, h8, h9, ZfsEnv.create_rets]
  by_cases h10 : e.create_user = 0
  swap
  · refine ⟨5, by norm_num, ?_, ?_, ?_, ?_⟩
    · simp [create_datasets, h1, h2, h3, h4, h5, h6, h7, h8, h9, h10, ROOT_POOL, ROOT_NAME, ZFS_PROP_MOUNTPOINT, ZFS_MOUNTPOINT_LEGACY]
    · simp [create_datasets, h1, h2, h3, h4, h5, h6, h7, h8, h9, h10]
    · intro k hk hne
      interval_cases k
      all_goals simp_all [create_datasets, ZfsEnv.create_rets]
    · simp [create_datasets, h1, h2, h3, h4, h5, h6, h7, h8, h9, h10, ZfsEnv.create_rets]
  refine ⟨5, by norm_num, ?_, ?_, ?_, ?_⟩
  · simp [create_datasets, h1, h2, h3, h4, h5, h6, h7, h8, h9, h10, ROOT_POOL, ROOT_NAME, ZFS_PROP_MOUNTPOINT, ZFS_MOUNTPOINT_LEGACY]
  · simp [create_datasets, h1, h2, h3, h4, h5, h6, h7, h8, h9, h10]
  · intro k hk hne
    interval_cases k
    all_goals simp_all [create_datasets, ZfsEnv.create_rets]
  · simp [create_datasets, h1, h2, h3, h4, h5, h6, h7, h8, h9, h10, ZfsEnv.create_rets]

/-- The calls of `create_root_filesystem`: calls that create no dataset,
followed by an initial part of the five dataset creates. -/
theorem create_root_filesystem_shape (altroot_bug : Bool) (disk : String) (e : ZfsEnv) :
    ∃ pre n, n ≤ 5 ∧
      (create_root_filesystem altroot_bug disk e).calls = pre ++
        (([("syspool/ROOT", some [("mountpoint", "legacy")]),
           ("syspool/ROOT/schillix", some [("mountpoint", "/")]),
           ("syspool/export", some [("mountpoint", "/export")]),
           ("syspool/export/home", none),
           ("syspool/export/home/schillix", none)] : List (String × Option nvlist)).take n).map
          (fun p => ZfsCall.zfs_create p.1 p.2) ∧
      dataset_creates pre = [] ∧ (∀ c ∈ pre, c.is_destroy = false) ∧
      pre.countP ZfsCall.is_pool_create ≤ 1 ∧
      (e.zpool_create = -1 → n = 0 ∧ (create_root_filesystem altroot_bug disk e).ret = -1) ∧
      ((create_root_filesystem altroot_bug disk e).ret = 0 ∨
        (create_root_filesystem altroot_bug disk e).ret = -1) ∧
      (∀ k, k < n → e.create_rets.getD k 0 ≠ 0 →
        n = k + 1 ∧ (create_root_filesystem altroot_bug disk e).ret = -1) ∧
      ((create_root_filesystem altroot_bug disk e).ret = 0 →
        e.zpool_create ≠ -1 ∧ (∀ x ∈ e.create_rets, x = 0) ∧ n = 5) := by
  by_cases a1 : e.alloc_vdev = 0
  swap
  · exact ⟨[], 0, by simp [create_root_filesystem, a1, dataset_creates]⟩
  by_cases a2 : e.add_vdev_path = 0
  swap
  · exact ⟨[], 0, by simp [create_root_filesystem, a1, a2, dataset_creates]⟩
  by_cases a3 : e.add_vdev_type = 0
  swap
  · exact ⟨[], 0, by simp [create_root_filesystem, a1, a2, a3, dataset_creates]⟩
  by_cases a4 : e.alloc_nvroot = 0
  swap
  · exact ⟨[], 0, by simp [create_root_filesystem, a1, a2, a3, a4, dataset_creates]⟩
  by_cases a5 : e.add_nvroot_type = 0
  swap
  · exact ⟨[], 0, by simp [create_root_filesystem, a1, a2, a3, a4, a5, dataset_creates]⟩
  by_cases a6 : e.add_nvroot_children = 0
  swap
  · exact ⟨[], 0, by simp [create_root_filesystem, a1, a2, a3, a4, a5, a6, dataset_creates]⟩
  by_cases a7 : e.alloc_props = 0
  swap
  · exact ⟨[], 0, by simp [create_root_filesystem, a1, a2, a3, a4, a5, a6, a7, dataset_creates]⟩
  by_cases a8 : e.add_altroot = 0
  swap
  · exact ⟨[], 0, by simp [create_root_filesystem, a1, a2, a3, a4, a5, a6, a7, a8, dataset_creates]⟩
  by_cases a9 : e.alloc_fsprops = 0
  swap
  · exact ⟨[], 0, by simp [create_root_filesystem, a1, a2, a3, a4, a5, a6, a7, a8, a9, dataset_creates]⟩
  by_cases a10 : e.add_pool_mountpoint = 0
  swap
  · exact ⟨[], 0, by simp [create_root_filesystem, a1, a2, a3, a4, a5, a6, a7, a8, a9, a10, dataset_creates]⟩
  have hfs : nvlist_add_string [] ZFS_PROP_MOUNTPOINT ("/" ++ ROOT_POOL) =
      [("mountpoint", "/syspool")] := by decide
  by_cases hz : e.zpool_create = -1
  · refine ⟨(create_root_filesystem altroot_bug disk e).calls, 0, ?_⟩
    simp [create_root_filesystem, a1, a2, a3, a4, a5, a6, a7, a8, a9, a10, hz, dataset_creates, ZfsCall.is_destroy,
      ZfsCall.is_pool_create, List.countP_cons]
  cases altroot_bug with
  | false =>
    have hrun : create_root_filesystem false disk e =
        create_datasets e [("mountpoint", "/syspool")]
          [.zpool_create ROOT_POOL
            ⟨nvlist_add_string [] ZPOOL_CONFIG_TYPE VDEV_TYPE_ROOT,
              [nvlist_add_string (nvlist_add_string [] ZPOOL_CONFIG_PATH (DISK_PATH ++ "/" ++ disk ++ "s0"))
                ZPOOL_CONFIG_TYPE VDEV_TYPE_DISK]⟩
            (nvlist_add_string [] ZPOOL_PROP_ALTROOT "/mnt") [("mountpoint", "/syspool")]] := by
      simp [create_root_filesystem, a1, a2, a3, a4, a5, a6, a7, a8, a9, a10, hz, hfs]
    obtain ⟨n, hn, hcalls, hret, hk, hsucc⟩ := create_datasets_spec e [("mountpoint", "/syspool")]
      [.zpool_create ROOT_POOL
        ⟨nvlist_add_string [] ZPOOL_CONFIG_TYPE VDEV_TYPE_ROOT,
          [nvlist_add_string (nvlist_add_string [] ZPOOL_CONFIG_PATH (DISK_PATH ++ "/" ++ disk ++ "s0"))
            ZPOOL_CONFIG_TYPE VDEV_TYPE_DISK]⟩
        (nvlist_add_string [] ZPOOL_PROP_ALTROOT "/mnt") [("mountpoint", "/syspool")]]
    rw [hrun]
    refine ⟨_, n, hn, hcalls, ?_, ?_, ?_, ?_, hret, hk, ?_⟩
    · simp [dataset_creates]
    · simp [ZfsCall.is_destroy]
    · simp [ZfsCall.is_pool_create, List.countP_cons]
    · intro h; exact absurd h hz
    · intro h; exact ⟨hz, hsucc h⟩
  | true =>
    cases hzh : e.zfs_path_to_zhandle with
    | none =>
      refine ⟨(create_root_filesystem true disk e).calls, 0, ?_⟩
      simp [create_root_filesystem, a1, a2, a3, a4, a5, a6, a7, a8, a9, a10, hz, hzh, dataset_creates, ZfsCall.is_destroy,
        ZfsCall.is_pool_create, List.countP_cons]
    | some zhp =>
      by_cases hs : e.zfs_prop_set = -1
      · refine ⟨(create_root_filesystem true disk e).calls, 0, ?_⟩
        simp [create_root_filesystem, a1, a2, a3, a4, a5, a6, a7, a8, a9, a10, hz, hzh, hs, dataset_creates, ZfsCall.is_destroy,
          ZfsCall.is_pool_create, List.countP_cons]
      have hrun : create_root_filesystem true disk e =
          create_datasets e [("mountpoint", "/syspool")]
            [.zpool_create ROOT_POOL
              ⟨nvlist_add_string [] ZPOOL_CONFIG_TYPE VDEV_TYPE_ROOT,
                [nvlist_add_string (nvlist_add_string [] ZPOOL_CONFIG_PATH (DISK_PATH ++ "/" ++ disk ++ "s0"))
                  ZPOOL_CONFIG_TYPE VDEV_TYPE_DISK]⟩
              (nvlist_add_string [] ZPOOL_PROP_ALTROOT "/mnt") [("mountpoint", "/syspool")],
             .zfs_path_to_zhandle ROOT_POOL,
             .zfs_prop_set zhp ZFS_PROP_MOUNTPOINT ("/" ++ ROOT_POOL)] := by
        simp [create_root_filesystem, a1, a2, a3, a4, a5, a6, a7, a8, a9, a10, hz, hzh, hs, hfs]
      obtain ⟨n, hn, hcalls, hret, hk, hsucc⟩ := create_datasets_spec e [("mountpoint", "/syspool")]
        [.zpool_create ROOT_POOL
          ⟨nvlist_add_string [] ZPOOL_CONFIG_TYPE VDEV_TYPE_ROOT,
            [nvlist_add_string (nvlist_add_string [] ZPOOL_CONFIG_PATH (DISK_PATH ++ "/" ++ disk ++ "s0"))
              ZPOOL_CONFIG_TYPE VDEV_TYPE_DISK]⟩
          (nvlist_add_string [] ZPOOL_PROP_ALTROOT "/mnt") [("mountpoint", "/syspool")],
         .zfs_path_to_zhandle ROOT_POOL,
         .zfs_prop_set zhp ZFS_PROP_MOUNTPOINT ("/" ++ ROOT_POOL)]
      rw [hrun]
      refine ⟨_, n, hn, hcalls, ?_, ?_, ?_, ?_, hret, hk, ?_⟩
      · simp [dataset_creates]
      · simp [ZfsCall.is_destroy]
      · simp [ZfsCall.is_pool_create, List.countP_cons]
      · intro h; exact absurd h hz
      · intro h; exact ⟨hz, hsucc h⟩

/-! ## Claims on `create_root_filesystem` -/

/-- C9 as stated fails: with every call succeeding, the names of the
datasets created are not the specified list for the user name "alice";
the code takes no user name. -/
theorem create_root_filesystem_ignores_user_name :
    ZfsEnv.ok.all_succeed ∧
    (dataset_creates (create_root_filesystem false "c0t0d0" ZfsEnv.ok).calls).map (fun c => c.1) ≠
      spec_dataset_names "syspool" "schillix" "alice" := by
  unfold ZfsEnv.all_succeed
  decide

/-- C9, amended: when every call succeeds, `create_root_filesystem` returns
0 and issues exactly these calls: first the creation of the pool "syspool"
on the single disk `DISK_PATH/<disk>s0` under a root device list, with
pool property altroot = "/mnt" and dataset property mountpoint =
"/syspool"; then, when built with the workaround, the lookup of "syspool"
and the setting of its mountpoint to "/syspool"; then the dataset creates,
in order, "syspool/ROOT" with the single property mountpoint = legacy,
"syspool/ROOT/schillix" with mountpoint = "/", "syspool/export" with
mountpoint = "/export", "syspool/export/home" and
"syspool/export/home/schillix" with no property list; the names are the
specified ones for root name and user name "schillix". -/
theorem create_root_filesystem_datasets (altroot_bug : Bool) (disk : String) (e : ZfsEnv)
    (h : e.all_succeed) :
    (create_root_filesystem altroot_bug disk e).ret = 0 ∧
    (create_root_filesystem altroot_bug disk e).calls =
      ZfsCall.zpool_create "syspool"
          ⟨[("type", "root")], [[("path", DISK_PATH ++ "/" ++ disk ++ "s0"), ("type", "disk")]]⟩
          [("altroot", "/mnt")] [("mountpoint", "/syspool")] ::
        ((if altroot_bug = true then
            ZfsCall.zfs_path_to_zhandle "syspool" ::
              e.zfs_path_to_zhandle.toList.map
                (fun z => ZfsCall.zfs_prop_set z "mountpoint" "/syspool")
          else []) ++
         [.zfs_create "syspool/ROOT" (some [("mountpoint", "legacy")]),
          .zfs_create "syspool/ROOT/schillix" (some [("mountpoint", "/")]),
          .zfs_create "syspool/export" (some [("mountpoint", "/export")]),
          .zfs_create "syspool/export/home" none,
          .zfs_create "syspool/export/home/schillix" none]) ∧
    ((create_root_filesystem altroot_bug disk e).calls.head?.map ZfsCall.is_pool_create =
        some true ∧
     (create_root_filesystem altroot_bug disk e).calls.countP ZfsCall.is_pool_create = 1) ∧
    dataset_creates (create_root_filesystem altroot_bug disk e).calls =
      [("syspool/ROOT", some [("mountpoint", "legacy")]),
       ("syspool/ROOT/schillix", some [("mountpoint", "/")]),
       ("syspool/export", some [("mountpoint", "/export")]),
       ("syspool/export/home", none),
       ("syspool/export/home/schillix", none)] ∧
    (dataset_creates (create_root_filesystem altroot_bug disk e).calls).map (fun c => c.1) =
      spec_dataset_names "syspool" "schillix" "schillix" ∧
    (dataset_creates (create_root_filesystem altroot_bug disk e).calls).map
      (fun c => explicit_mountpoint c.2) = spec_mountpoints := by
  obtain ⟨h1, h2, h3, h4, h5, h6, h7, h8, h9, h10, h11, h12, h13, h14, h15, h16, h17, h18,
    h19, h20, h21, h22, h23⟩ := h
  obtain ⟨z, hz⟩ := Option.isSome_iff_exists.mp h12
  cases altroot_bug <;>
    simp [create_root_filesystem, create_datasets, h1, h2, h3, h4, h5, h6, h7, h8, h9, h10,
      h11, hz, h13, h14, h15, h16, h17, h18, h19, h20, h21, h22, h23, dataset_creates,
      ZfsCall.is_pool_create, List.countP_cons, nvlist_add_string, ROOT_POOL, ROOT_NAME,
      ZFS_PROP_MOUNTPOINT, ZFS_MOUNTPOINT_LEGACY, ZPOOL_PROP_ALTROOT, ZPOOL_CONFIG_PATH,
      ZPOOL_CONFIG_TYPE, VDEV_TYPE_DISK, VDEV_TYPE_ROOT] <;>
    decide

/-- C9, amended, at the environment in which every call returns success,
built with the workaround, for the disk "c0t0d0". -/
theorem create_root_filesystem_datasets_witness :
    ZfsEnv.ok.all_succeed ∧
    (create_root_filesystem true "c0t0d0" ZfsEnv.ok).ret = 0 ∧
    (create_root_filesystem true "c0t0d0" ZfsEnv.ok).calls =
      ZfsCall.zpool_create "syspool"
          ⟨[("type", "root")], [[("path", DISK_PATH ++ "/" ++ "c0t0d0" ++ "s0"), ("type", "disk")]]⟩
          [("altroot", "/mnt")] [("mountpoint", "/syspool")] ::
        ((if true = true then
            ZfsCall.zfs_path_to_zhandle "syspool" ::
              ZfsEnv.ok.zfs_path_to_zhandle.toList.map
                (fun z => ZfsCall.zfs_prop_set z "mountpoint" "/syspool")
          else []) ++
         [.zfs_create "syspool/ROOT" (some [("mountpoint", "legacy")]),
          .zfs_create "syspool/ROOT/schillix" (some [("mountpoint", "/")]),
          .zfs_create "syspool/export" (some [("mountpoint", "/export")]),
          .zfs_create "syspool/export/home" none,
          .zfs_create "syspool/export/home/schillix" none]) ∧
    ((create_root_filesystem true "c0t0d0" ZfsEnv.ok).calls.head?.map ZfsCall.is_pool_create =
        some true ∧
     (create_root_filesystem true "c0t0d0" ZfsEnv.ok).calls.countP ZfsCall.is_pool_create = 1) ∧
    dataset_creates (create_root_filesystem true "c0t0d0" ZfsEnv.ok).calls =
      [("syspool/ROOT", some [("mountpoint", "legacy")]),
       ("syspool/ROOT/schillix", some [("mountpoint", "/")]),
       ("syspool/export", some [("mountpoint", "/export")]),
       ("syspool/export/home", none),
       ("syspool/export/home/schillix", none)] ∧
    (dataset_creates (create_root_filesystem true "c0t0d0" ZfsEnv.ok).calls).map (fun c => c.1) =
      spec_dataset_names "syspool" "schillix" "schillix" ∧
    (dataset_creates (create_root_filesystem true "c0t0d0" ZfsEnv.ok).calls).map
      (fun c => explicit_mountpoint c.2) = spec_mountpoints :=
  have h : ZfsEnv.ok.all_succeed := by unfold ZfsEnv.all_succeed; decide
  ⟨h, create_root_filesystem_datasets true "c0t0d0" ZfsEnv.ok h⟩

/-- C10: for every outcome of the library calls, `create_root_filesystem`
returns 0 or -1; when `zpool_create` fails (returns -1) it returns -1 and
issues no dataset create; the dataset creates issued are always an initial
part of the fixed five; when an issued create fails (returns non-zero) it
is the last one issued and the function returns -1; the function returns 0
only when `zpool_create` did not fail, all five creates were issued and
each returned 0; the pool is created at most once and no destroy call is
ever issued. -/
theorem create_root_filesystem_stops_at_first_failure (altroot_bug : Bool) (disk : String)
    (e : ZfsEnv) :
    ((create_root_filesystem altroot_bug disk e).ret = 0 ∨
      (create_root_filesystem altroot_bug disk e).ret = -1) ∧
    (e.zpool_create = -1 →
      (create_root_filesystem altroot_bug disk e).ret = -1 ∧
      dataset_creates (create_root_filesystem altroot_bug disk e).calls = []) ∧
    dataset_creates (create_root_filesystem altroot_bug disk e).calls =
      ([("syspool/ROOT", some [("mountpoint", "legacy")]),
        ("syspool/ROOT/schillix", some [("mountpoint", "/")]),
        ("syspool/export", some [("mountpoint", "/export")]),
        ("syspool/export/home", none),
        ("syspool/export/home/schillix", none)] : List (String × Option nvlist)).take
        (dataset_creates (create_root_filesystem altroot_bug disk e).calls).length ∧
    (∀ k, k < (dataset_creates (create_root_filesystem altroot_bug disk e).calls).length →
      e.create_rets.getD k 0 ≠ 0 →
      (dataset_creates (create_root_filesystem altroot_bug disk e).calls).length = k + 1 ∧
      (create_root_filesystem altroot_bug disk e).ret = -1) ∧
    ((create_root_filesystem altroot_bug disk e).ret = 0 →
      e.zpool_create ≠ -1 ∧ (∀ x ∈ e.create_rets, x = 0) ∧
      (dataset_creates (create_root_filesystem altroot_bug disk e).calls).length = 5) ∧
    (create_root_filesystem altroot_bug disk e).calls.countP ZfsCall.is_pool_create ≤ 1 ∧
    (∀ c ∈ (create_root_filesystem altroot_bug disk e).calls, c.is_destroy = false) := by
  obtain ⟨pre, n, hn, hcalls, hpre, hdes, hcnt, hz, hret, hk, hsucc⟩ :=
    create_root_filesystem_shape altroot_bug disk e
  have hdc : dataset_creates (create_root_filesystem altroot_bug disk e).calls =
      ([("syspool/ROOT", some [("mountpoint", "legacy")]),
        ("syspool/ROOT/schillix", some [("mountpoint", "/")]),
        ("syspool/export", some [("mountpoint", "/export")]),
        ("syspool/export/home", none),
        ("syspool/export/home/schillix", none)] : List (String × Option nvlist)).take n := by
    rw [hcalls, dataset_creates_append, hpre, dataset_creates_map, List.nil_append]
  have hlen : (dataset_creates (create_root_filesystem altroot_bug disk e).calls).length = n := by
    rw [hdc, List.length_take]
    simpa using hn
  rw [hlen]
  refine ⟨hret, ?_, hdc, hk, hsucc, ?_, ?_⟩
  · intro h
    obtain ⟨h0, h1⟩ := hz h
    rw [hdc, h0]
    exact ⟨h1, rfl⟩
  · rw [hcalls, List.countP_append]
    have h0 : ∀ l : List (String × Option nvlist),
        (l.map (fun p => ZfsCall.zfs_create p.1 p.2)).countP ZfsCall.is_pool_create = 0 := by
      intro l
      induction l with
      | nil => rfl
      | cons p ps ih => simp [List.countP_cons, ZfsCall.is_pool_create]
    rw [h0]
    exact hcnt
  · intro c hc
    rw [hcalls, List.mem_append] at hc
    rcases hc with hc | hc
    · exact hdes c hc
    · obtain ⟨p, _, hp⟩ := List.mem_map.mp hc
      rw [← hp]
      rfl

/-! ## Claims on the install sequence of `main` -/

/-- The disk stages of `main`, for every outcome: the Slice Table Builder
is invoked exactly when the disk is not in use and `create_root_partition`
returned a value other than 0, and the pool stage exactly when moreover
`create_root_vtoc` returned a value other than 0. -/
theorem main_install_disk_stages (sparc : Bool) (disk : String) (unmount : Bool)
    (e : InstallEnv) :
    (Stage.create_root_vtoc ∈ (main_install sparc disk unmount e).calls ↔
      (e.disk_in_use ≠ B_TRUE ∧ (create_root_partition sparc disk e.parted).ret ≠ 0)) ∧
    (Stage.create_root_pool ∈ (main_install sparc disk unmount e).calls ↔
      (e.disk_in_use ≠ B_TRUE ∧ (create_root_partition sparc disk e.parted).ret ≠ 0 ∧
        (create_root_vtoc sparc disk e.vtoc).ret ≠ 0)) := by
  have hfs : ∀ done : List Stage,
      Stage.create_root_vtoc ∈ done →
      Stage.create_root_vtoc ∈ (main_filesystem unmount e done).calls ∧
      Stage.create_root_pool ∈ (main_filesystem unmount e done).calls := by
    intro done hd
    have hu : ∀ d : List Stage, ∀ x : Stage, x ∈ d → x ∈ (main_unmount unmount e d).calls := by
      intro d x hx
      unfold main_unmount
      split_ifs <;> simp [hx]
    unfold main_filesystem
    simp only
    split_ifs <;> refine ⟨?_, ?_⟩ <;> first
      | (apply hu; simp [hd])
      | simp [hd]
  by_cases h1 : e.disk_in_use = B_TRUE
  · simp [main_install, h1]
  by_cases h2 : (create_root_partition sparc disk e.parted).ret = 0
  · simp [main_install, B_FALSE, h1, h2]
  by_cases h3 : (create_root_vtoc sparc disk e.vtoc).ret = 0
  · simp [main_install, B_FALSE, h1, h2, h3]
  have hrun : main_install sparc disk unmount e =
      main_filesystem unmount e [.disk_in_use, .create_root_partition, .create_root_vtoc] := by
    simp [main_install, B_FALSE, h1, h2, h3]
  rw [hrun]
  obtain ⟨ha, hb⟩ := hfs [.disk_in_use, .create_root_partition, .create_root_vtoc] (by simp)
  exact ⟨⟨fun _ => ⟨h1, h2⟩, fun _ => ha⟩, ⟨fun _ => ⟨h1, h2, h3⟩, fun _ => hb⟩⟩

/-- C11: when the Partition Writer fails (no device handle, return -1) and
the later stages succeed, `main` goes on to invoke `create_root_vtoc`, and
when the Slice Table Builder then fails too (write failure, return -1) it
goes on to the pool stage and runs the sequence to the end with exit
status 0; when the Partition Writer succeeds (return 0) `main` returns
`EXIT_FAILURE` without invoking `create_root_vtoc`, and when the Partition
Writer fails and the Slice Table Builder succeeds (return 0) `main` returns
`EXIT_FAILURE` without invoking the pool stage. -/
theorem main_install_failure_test_inverted :
    ((create_root_partition false "c0t0d0" parted_env_no_device).ret = -1 ∧
     (create_root_vtoc false "c0t0d0" (vtoc_env_unwritable ⟨1024, 255, 63⟩)).ret = -1 ∧
     (main_install false "c0t0d0" true
        (install_env parted_env_no_device (vtoc_env_unwritable ⟨1024, 255, 63⟩))).ret =
       EXIT_SUCCESS ∧
     (main_install false "c0t0d0" true
        (install_env parted_env_no_device (vtoc_env_unwritable ⟨1024, 255, 63⟩))).calls =
       [.disk_in_use, .create_root_partition, .create_root_vtoc,
        .create_root_pool, .create_root_datasets, .set_root_bootfs, .mount_root_datasets,
        .copy_files, .copy_grub, .config_grub, .config_devfs, .config_bootadm,
        .unmount_root_datasets, .export_root_pool]) ∧
    ((create_root_partition false "c0t0d0" parted_env_ok).ret = 0 ∧
     (main_install false "c0t0d0" true
        (install_env parted_env_ok (vtoc_env_ok ⟨1024, 255, 63⟩))).ret = EXIT_FAILURE ∧
     (main_install false "c0t0d0" true
        (install_env parted_env_ok (vtoc_env_ok ⟨1024, 255, 63⟩))).calls =
       [.disk_in_use, .create_root_partition]) ∧
    ((create_root_vtoc false "c0t0d0" (vtoc_env_ok ⟨1024, 255, 63⟩)).ret = 0 ∧
     (main_install false "c0t0d0" true
        (install_env parted_env_no_device (vtoc_env_ok ⟨1024, 255, 63⟩))).ret = EXIT_FAILURE ∧
     (main_install false "c0t0d0" true
        (install_env parted_env_no_device (vtoc_env_ok ⟨1024, 255, 63⟩))).calls =
       [.disk_in_use, .create_root_partition, .create_root_vtoc]) := by
  decide

end Schillix
